import Mathlib

/-!
Verification of the OAuth application settings components
(`StyledInputField`, `OAuthApplicationSettings`, `DeleteOAuthApplicationModal`)
of the opencollective front-end, as a shallow embedding in Lean 4.

The embedding follows the JavaScript sources closely:
* JavaScript values that matter for truthiness tests are modelled by `JSVal`;
* optional string props are `Option String`, where `some ""` is falsy like the
  empty string in JavaScript;
* the render output of `StyledInputField` is captured by the `Rendered`
  structure recording which sections appear and which props the render-prop
  child receives;
* the Formik form state, the Apollo cache and the toast list are explicit
  values threaded through the submit and delete handlers.
-/

/-- A JavaScript value, as far as the truthiness and `typeof` tests in the
sources distinguish them. -/
inductive JSVal where
  | vUndefined
  | vNull
  | vStr (s : String)
  | vBool (b : Bool)
  | vNum (n : Int)
  | vObj
deriving DecidableEq, Repr

/-- JavaScript truthiness of a `JSVal`. -/
def JSVal.truthy : JSVal → Bool
  | .vUndefined => false
  | .vNull => false
  | .vStr s => s ≠ ""
  | .vBool b => b
  | .vNum n => n ≠ 0
  | .vObj => true

/-- The test `typeof v === 'string'`. -/
def JSVal.isString : JSVal → Bool
  | .vStr _ => true
  | _ => false

/-- Truthiness of an optional string prop (`undefined` or `""` are falsy). -/
def strTruthy : Option String → Bool
  | some s => s ≠ ""
  | none => false

/-- JavaScript `a || b` on optional string props. -/
def jsOrStr (a b : Option String) : Option String :=
  if strTruthy a then a else b

/-- The props of `StyledInputField` that govern its logic (children, styling
and layout props are omitted: they do not influence which sections render). -/
structure InputFieldConfig where
  label : Option String
  htmlFor : Option String
  name : Option String
  error : JSVal
  hint : Option String
  success : Option Bool
  disabled : Option Bool
  required : Option Bool
  inputType : Option String
  hideOptionalLabel : Bool
  useRequiredLabel : Bool
  isPrivate : Bool
  helpText : Option String
deriving DecidableEq, Repr

/-- Which of the three label branches of `StyledInputField` renders. -/
inductive LabelVariant where
  /-- The `FormattedMessage id="OptionalFieldLabel"` branch: label plus an
  "(optional)" qualifier. -/
  | optionalQualifier
  /-- The `displayRequiredLabel` branch: label plus a `*` marker. -/
  | requiredMarker
  /-- The plain fragment branch: the bare label content. -/
  | plain
deriving DecidableEq, Repr

/-- The props computed for a render-prop child of `StyledInputField`
(`children({ name, id, type, error, success, disabled, required })`). -/
structure ChildProps where
  name : Option String
  id : Option String
  type : Option String
  error : Option Bool
  success : Option Bool
  disabled : Option Bool
  required : Option Bool
deriving DecidableEq, Repr

/-- The observable outcome of rendering `StyledInputField`: which label
variant renders (if any), the error block content (if rendered), the hint
block content (if rendered), and the props handed to a render-prop child. -/
structure Rendered where
  labelSection : Option LabelVariant
  errorBlock : Option String
  hintBlock : Option String
  childProps : ChildProps
deriving DecidableEq, Repr

/-- `htmlFor = htmlFor || (name ? input-$\x7bname\x7d : undefined)` from
`StyledInputField`. -/
def computedHtmlFor (htmlFor name : Option String) : Option String :=
  jsOrStr htmlFor
    (match name with
     | some n => if n ≠ "" then some ("input-" ++ n) else none
     | none => none)

/-- Shallow embedding of the `StyledInputField` component body. It is a total
function: no configuration makes it throw. The returned `childProps` are the
props a render-prop child receives; a plain-node child ignores them. -/
def StyledInputField (cfg : InputFieldConfig) : Rendered :=
  let isCheckbox := cfg.inputType == some "checkbox"
  let htmlFor := computedHtmlFor cfg.htmlFor cfg.name
  let displayOptionalLabel := if cfg.hideOptionalLabel then false else cfg.required == some false
  let displayRequiredLabel := if cfg.useRequiredLabel then cfg.required == some true else false
  { labelSection :=
      if strTruthy cfg.label then
        some (if displayOptionalLabel && !isCheckbox then .optionalQualifier
              else if displayRequiredLabel then .requiredMarker
              else .plain)
      else none
    errorBlock :=
      match cfg.error with
      | .vStr s => if s ≠ "" then some s else none
      | _ => none
    hintBlock :=
      if strTruthy cfg.hint && !cfg.error.truthy then cfg.hint else none
    childProps :=
      { name := jsOrStr cfg.name htmlFor
        id := htmlFor
        type := cfg.inputType
        error := if cfg.error.truthy then some true else none
        success := cfg.success
        disabled := cfg.disabled
        required := cfg.required } }

/-- The `Application` entity of the `ApplicationSettings` GraphQL fragment:
id, name, description, redirectUri, clientId, clientSecret. -/
structure Application where
  id : String
  name : String
  description : String
  redirectUri : String
  clientId : String
  clientSecret : String
deriving DecidableEq, Repr

/-- The Formik values object seeded with `data.application`: all six fragment
fields are present as keys. -/
def valuesObj (a : Application) : List (String × JSVal) :=
  [("id", .vStr a.id), ("name", .vStr a.name), ("description", .vStr a.description),
   ("redirectUri", .vStr a.redirectUri), ("clientId", .vStr a.clientId),
   ("clientSecret", .vStr a.clientSecret)]

/-- lodash `pick(obj, keys)`: for each requested key that exists on the
object, copy its value; keys absent from the object are skipped. -/
def pick (obj : List (String × JSVal)) (keys : List String) : List (String × JSVal) :=
  keys.filterMap fun k => (obj.find? fun kv => kv.1 == k).map fun kv => (k, kv.2)

/-- The three user-editable fields picked from the form values by `onSubmit`. -/
def updateFields : List String := ["name", "description", "redirectUri"]

/-- `applicationInput = \x7b id: data.application.id, ...filteredValues \x7d`
from `onSubmit` in `OAuthApplicationSettings`. -/
def applicationInput (appId : String) (values : List (String × JSVal)) :
    List (String × JSVal) :=
  ("id", .vStr appId) :: pick values updateFields

/-- Toast kinds of `TOAST_TYPE`. -/
inductive ToastType where
  | success
  | error
deriving DecidableEq, Repr

/-- A toast notification passed to `addToast`. -/
structure Toast where
  type : ToastType
  message : String
deriving DecidableEq, Repr

/-- Number of toasts of a given type in a toast list. -/
def countToasts (ts : List Toast) (ty : ToastType) : Nat :=
  (ts.filter fun t => t.type == ty).length

/-- `i18nGraphqlException(intl, e)`: the translation of a GraphQL error into a
user-facing message lives in `lib/errors` (an external collaborator per the
spec); no claim inspects the produced text, so it is modelled as the identity
on the error message. -/
def i18nGraphqlException (e : String) : String := e

/-- Formik form state: `baseline` is the `initialValues` (last server-confirmed
values), `values` the current field values. -/
structure FormState where
  baseline : Application
  values : Application
deriving DecidableEq, Repr

/-- Formik's `dirty` flag: values differ from the baseline. -/
def FormState.dirty (s : FormState) : Bool := decide (s.values ≠ s.baseline)

/-- Formik's `resetForm(\x7bvalues: v\x7d)`: both the baseline and the current
values become `v`. -/
def resetForm (v : Application) : FormState := { baseline := v, values := v }

/-- Shallow embedding of `onSubmit` in `OAuthApplicationSettings` (lines
133-149). The network call is modelled by the function `updateApplication`
from the request input to the mutation outcome (`Except` models a thrown
GraphQL/transport error). The handler is total: both outcomes produce a
state and a toast list, so no error escapes it. It returns the new form
state together with the toasts raised during this submission. -/
def onSubmit (app : Application) (s : FormState)
    (updateApplication : List (String × JSVal) → Except String Application) :
    FormState × List Toast :=
  match updateApplication (applicationInput app.id (valuesObj s.values)) with
  | .ok result =>
      (resetForm result,
       [{ type := .success, message := "Application " ++ result.name ++ " updated" }])
  | .error e =>
      (s, [{ type := .error, message := i18nGraphqlException e }])

/-- The `hasUnsavedChanges` prop of `WarnIfUnsavedChanges` on line 153:
`dirty && !showDeleteModal`. -/
def warnIfUnsavedChangesProp (dirty showDeleteModal : Bool) : Bool :=
  dirty && !showDeleteModal

/-- `ObfuscatedClientSecret` local `show` state after `n` clicks of the
toggle (`setShow(!show)`, starting from `false`). -/
def showAfter : Nat → Bool
  | 0 => false
  | n + 1 => !(showAfter n)

/-- What `ObfuscatedClientSecret` displays: the fetched secret exactly when
`shown` is true, nothing otherwise. -/
def ObfuscatedClientSecret (secret : String) (shown : Bool) : Option String :=
  if shown then some secret else none

/-- The payload of the `deleteApplication` mutation: the deleted application's
id and its parent account's id (`data.deleteApplication.account.id`). -/
structure DeleteResult where
  id : String
  accountId : String
deriving DecidableEq, Repr

/-- The Apollo normalized cache, as far as the delete flow touches it:
the set of cached Application objects (by cache id, here the application id)
and, per account, the cached `oAuthApplications` field (a list of application
ids; `none` means the field is absent from the cache). -/
structure Cache where
  objects : List String
  accountFields : List (String × Option (List String))
deriving DecidableEq, Repr

/-- `cache.evict(\x7bid: cache.identify(application)\x7d)`: drop the object. -/
def Cache.evict (c : Cache) (cacheId : String) : Cache :=
  { c with objects := c.objects.filter fun o => o != cacheId }

/-- `cache.gc()`: collects entries no longer reachable from the root. The
model does not track references between entries, and no claim depends on
which additional entries gc collects, so it is the identity here. -/
def Cache.gc (c : Cache) : Cache := c

/-- `cache.modify(\x7bid: accountCacheId, fields: \x7boAuthApplications: DELETE\x7d\x7d)`:
the account's cached `oAuthApplications` field is deleted outright. -/
def Cache.modifyDeleteOAuthApps (c : Cache) (accountId : String) : Cache :=
  { c with accountFields := c.accountFields.map fun af =>
      if af.1 == accountId then (af.1, none) else af }

/-- The cached `oAuthApplications` listing of an account, if present. -/
def Cache.oAuthApplications (c : Cache) (accountId : String) : Option (List String) :=
  ((c.accountFields.find? fun af => af.1 == accountId).map Prod.snd).join

/-- Whether some cached `oAuthApplications` listing of `accountId` still
contains `appId`. -/
def cachedListingContains (c : Cache) (accountId appId : String) : Bool :=
  match c.oAuthApplications accountId with
  | some l => l.contains appId
  | none => false

/-- The `update` option of the `deleteApplication` mutation in
`DeleteOAuthApplicationModal` (lines 29-37): evict the application object,
run gc, then delete the parent account's `oAuthApplications` field. -/
def deleteApplicationUpdate (application : Application) (c : Cache)
    (d : DeleteResult) : Cache :=
  ((c.evict application.id).gc).modifyDeleteOAuthApps d.accountId

/-- The observable outcome of one run of the modal's `continueHandler`: the
cache afterwards, the toasts raised, how often `onDelete` was invoked, and
whether the handler resolved with `CONFIRMATION_MODAL_TERMINATE`. -/
structure DeleteOutcome where
  cache : Cache
  toasts : List Toast
  onDeleteCalls : Nat
  terminate : Bool
deriving DecidableEq, Repr

/-- Shallow embedding of `continueHandler` in `DeleteOAuthApplicationModal`
(lines 46-58). The mutation call is modelled by its outcome `deleteRes`
(`Except` models a thrown error); on success Apollo runs the `update`
callback, then `onDelete` is awaited, a success toast raised and
`CONFIRMATION_MODAL_TERMINATE` returned; on failure the catch block raises
an error toast and the handler returns `undefined`. The handler is total:
no error escapes it. -/
def continueHandler (application : Application) (c : Cache)
    (deleteRes : Except String DeleteResult) : DeleteOutcome :=
  match deleteRes with
  | .ok d =>
      { cache := deleteApplicationUpdate application c d
        toasts := [{ type := .success,
                     message := "Application " ++ application.name ++ " deleted" }]
        onDeleteCalls := 1
        terminate := true }
  | .error e =>
      { cache := c
        toasts := [{ type := .error, message := i18nGraphqlException e }]
        onDeleteCalls := 0
        terminate := false }

/-- Modelled from the spec: the `ConfirmationModal` component is not among the
sources; per the spec ("on failure, the confirmation dialog remains open and
an error notification is raised without closing it") it closes after the
continue handler only when the handler resolved with
`CONFIRMATION_MODAL_TERMINATE`, and stays open otherwise. -/
def modalClosesAfter (o : DeleteOutcome) : Bool := o.terminate

/-! ## Theorems -/

/-- C1: for every update submission that succeeds, the form's baseline is
replaced by the server-confirmed application values returned by the update
mutation (so `dirty` becomes false and the displayed name equals the
server-returned name), and exactly one success notification is raised. -/
theorem submit_success_resets_baseline (app : Application) (s : FormState)
    (updateApplication : List (String × JSVal) → Except String Application)
    (result : Application)
    (h : updateApplication (applicationInput app.id (valuesObj s.values)) =
      Except.ok result) :
    (onSubmit app s updateApplication).1.baseline = result ∧
    (onSubmit app s updateApplication).1.values = result ∧
    (onSubmit app s updateApplication).1.dirty = false ∧
    (onSubmit app s updateApplication).1.values.name = result.name ∧
    countToasts (onSubmit app s updateApplication).2 ToastType.success = 1 ∧
    (onSubmit app s updateApplication).2.length = 1 := by
  simp [onSubmit, h, resetForm, FormState.dirty, countToasts]

/-- A concrete application used by the witnesses below. -/
def appA : Application :=
  { id := "app1", name := "Old Name", description := "d", redirectUri := "u"
    clientId := "cid", clientSecret := "sec" }

/-- `appA` with an edited name, used by the witnesses below. -/
def appB : Application :=
  { id := "app1", name := "New Name", description := "d", redirectUri := "u"
    clientId := "cid", clientSecret := "sec" }

/-- Witness for C1 at a concrete successful submission. -/
theorem submit_success_resets_baseline_witness :
    (onSubmit appA { baseline := appA, values := appB }
      (fun _ => Except.ok appB)).1.baseline = appB ∧
    (onSubmit appA { baseline := appA, values := appB }
      (fun _ => Except.ok appB)).1.values = appB ∧
    (onSubmit appA { baseline := appA, values := appB }
      (fun _ => Except.ok appB)).1.dirty = false ∧
    (onSubmit appA { baseline := appA, values := appB }
      (fun _ => Except.ok appB)).1.values.name = appB.name ∧
    countToasts (onSubmit appA { baseline := appA, values := appB }
      (fun _ => Except.ok appB)).2 ToastType.success = 1 ∧
    (onSubmit appA { baseline := appA, values := appB }
      (fun _ => Except.ok appB)).2.length = 1 :=
  submit_success_resets_baseline appA { baseline := appA, values := appB }
    (fun _ => Except.ok appB) appB rfl

/-- C2: for every update submission that fails, the form state (baseline and
displayed values) is unchanged, the form remains dirty, and exactly one error
notification is raised. `onSubmit` is a total function returning a state and
a toast list in both branches, so no error propagates out of it. -/
theorem submit_failure_preserves_state (app : Application) (s : FormState)
    (updateApplication : List (String × JSVal) → Except String Application)
    (e : String)
    (h : updateApplication (applicationInput app.id (valuesObj s.values)) =
      Except.error e) :
    (onSubmit app s updateApplication).1 = s ∧
    (s.dirty = true → (onSubmit app s updateApplication).1.dirty = true) ∧
    countToasts (onSubmit app s updateApplication).2 ToastType.error = 1 ∧
    (onSubmit app s updateApplication).2.length = 1 := by
  simp [onSubmit, h, countToasts]

/-- Witness for C2 at a concrete failing submission from a dirty form. -/
theorem submit_failure_preserves_state_witness :
    (onSubmit appA { baseline := appA, values := appB }
      (fun _ => Except.error "boom")).1 = { baseline := appA, values := appB } ∧
    (onSubmit appA { baseline := appA, values := appB }
      (fun _ => Except.error "boom")).1.dirty = true ∧
    countToasts (onSubmit appA { baseline := appA, values := appB }
      (fun _ => Except.error "boom")).2 ToastType.error = 1 := by
  have t := submit_failure_preserves_state appA { baseline := appA, values := appB }
    (fun _ => Except.error "boom") "boom" rfl
  exact ⟨t.1, t.2.1 (by decide), t.2.2.1⟩

/-- C4: the unsaved-changes guard prop passed to `WarnIfUnsavedChanges` is
true exactly when the form is dirty and the delete confirmation modal is
closed. -/
theorem unsaved_guard_active_iff (s : FormState) (showDeleteModal : Bool) :
    warnIfUnsavedChangesProp s.dirty showDeleteModal = true ↔
      (s.dirty = true ∧ showDeleteModal = false) := by
  cases h : s.dirty <;> cases showDeleteModal <;>
    simp [warnIfUnsavedChangesProp, h]

/-- C7: after `n` presses of the reveal toggle the secret is shown exactly
when `n` is odd, and when shown the displayed value is the fetched secret
itself. -/
theorem secret_reveal_parity (secret : String) (n : Nat) :
    showAfter n = decide (n % 2 = 1) ∧
    ObfuscatedClientSecret secret (showAfter n) =
      (if n % 2 = 1 then some secret else none) := by
  have hp : showAfter n = decide (n % 2 = 1) := by
    induction n with
    | zero => simp [showAfter]
    | succ k ih =>
        rcases Nat.mod_two_eq_zero_or_one k with h | h
        · have h2 : (k + 1) % 2 = 1 := by omega
          simp [showAfter, ih, h, h2]
        · have h2 : (k + 1) % 2 = 0 := by omega
          simp [showAfter, ih, h, h2]
  refine ⟨hp, ?_⟩
  rw [ObfuscatedClientSecret, hp]
  by_cases h : n % 2 = 1 <;> simp [h]

/-- A baseline field configuration used by witnesses and counterexamples. -/
def baseCfg : InputFieldConfig :=
  { label := some "Name", htmlFor := none, name := some "name"
    error := .vUndefined, hint := none, success := none, disabled := none
    required := none, inputType := none, hideOptionalLabel := false
    useRequiredLabel := false, isPrivate := false, helpText := none }

/-- A checkbox field that is explicitly not required, with no suppression. -/
def checkboxOptionalCfg : InputFieldConfig :=
  { baseCfg with required := some false, inputType := some "checkbox" }

/-- C5 counterexample: a checkbox field with `required=false` and no
optional-label suppression renders the plain label, not the "(optional)"
qualifier — the source additionally requires the field not to be a checkbox
(`displayOptionalLabel && !isCheckbox`). -/
theorem optional_label_checkbox_counterexample :
    strTruthy checkboxOptionalCfg.label = true ∧
    checkboxOptionalCfg.required = some false ∧
    checkboxOptionalCfg.hideOptionalLabel = false ∧
    (StyledInputField checkboxOptionalCfg).labelSection = some LabelVariant.plain ∧
    (StyledInputField checkboxOptionalCfg).labelSection ≠
      some LabelVariant.optionalQualifier := by decide

/-- C5 (amended): for non-checkbox fields, `required=false` without
suppression renders the "(optional)" qualifier; `required=true` with
required-label mode renders the required marker (checkbox or not); and no
configuration renders both at once. -/
theorem optional_and_required_labels (cfg : InputFieldConfig) :
    (strTruthy cfg.label = true → cfg.required = some false →
      cfg.hideOptionalLabel = false → cfg.inputType ≠ some "checkbox" →
      (StyledInputField cfg).labelSection = some LabelVariant.optionalQualifier) ∧
    (strTruthy cfg.label = true → cfg.required = some true →
      cfg.useRequiredLabel = true →
      (StyledInputField cfg).labelSection = some LabelVariant.requiredMarker) ∧
    ¬((StyledInputField cfg).labelSection = some LabelVariant.optionalQualifier ∧
      (StyledInputField cfg).labelSection = some LabelVariant.requiredMarker) := by
  refine ⟨?_, ?_, ?_⟩
  · intro hl hr hh hc
    simp [StyledInputField, hl, hr, hh, hc]
  · intro hl hr hu
    cases hh : cfg.hideOptionalLabel <;>
      simp [StyledInputField, hl, hr, hu, hh]
  · rintro ⟨h1, h2⟩
    rw [h1] at h2
    simp at h2

/-- An explicitly optional text field. -/
def optCfg : InputFieldConfig := { baseCfg with required := some false }

/-- An explicitly required field with required-label mode on. -/
def reqCfg : InputFieldConfig :=
  { baseCfg with required := some true, useRequiredLabel := true }

/-- Witness for C5 (amended) at the two concrete configurations. -/
theorem optional_and_required_labels_witness :
    (StyledInputField optCfg).labelSection = some LabelVariant.optionalQualifier ∧
    (StyledInputField reqCfg).labelSection = some LabelVariant.requiredMarker :=
  ⟨(optional_and_required_labels optCfg).1 (by decide) rfl rfl (by decide),
   (optional_and_required_labels reqCfg).2.1 (by decide) rfl rfl⟩

/-- A field with a truthy non-string error and a hint. -/
def boolErrorCfg : InputFieldConfig :=
  { baseCfg with error := .vBool true, hint := some "A hint" }

/-- C6 counterexample: with `error = true` (a truthy non-string) and a hint
present, the error is not a non-empty text value, yet the hint is not
rendered either — the source gates the hint on `!error`, not on the error
block having rendered. -/
theorem hint_suppressed_counterexample :
    boolErrorCfg.error.isString = false ∧
    strTruthy boolErrorCfg.hint = true ∧
    (StyledInputField boolErrorCfg).errorBlock = none ∧
    (StyledInputField boolErrorCfg).hintBlock = none := by decide

/-- C6 (amended): a non-empty string error renders the error block and
suppresses the hint; when the error value is falsy and a hint exists, the
hint renders (a truthy non-string error suppresses both). -/
theorem error_text_replaces_hint (cfg : InputFieldConfig) :
    (∀ s : String, cfg.error = JSVal.vStr s → s ≠ "" →
      (StyledInputField cfg).errorBlock = some s ∧
      (StyledInputField cfg).hintBlock = none) ∧
    (cfg.error.truthy = false → strTruthy cfg.hint = true →
      (StyledInputField cfg).hintBlock = cfg.hint) := by
  constructor
  · intro s hs hne
    constructor
    · simp [StyledInputField, hs, hne]
    · simp [StyledInputField, hs, JSVal.truthy, hne]
  · intro he hh
    simp [StyledInputField, he, hh]

/-- A field with a non-empty string error and a hint. -/
def strErrorCfg : InputFieldConfig :=
  { baseCfg with error := .vStr "Required", hint := some "A hint" }

/-- A field with no error and a hint. -/
def noErrorCfg : InputFieldConfig := { baseCfg with hint := some "A hint" }

/-- Witness for C6 (amended) at the two concrete configurations. -/
theorem error_text_replaces_hint_witness :
    ((StyledInputField strErrorCfg).errorBlock = some "Required" ∧
     (StyledInputField strErrorCfg).hintBlock = none) ∧
    (StyledInputField noErrorCfg).hintBlock = some "A hint" :=
  ⟨(error_text_replaces_hint strErrorCfg).1 "Required" rfl (by decide),
   (error_text_replaces_hint noErrorCfg).2 (by decide) (by decide)⟩

/-- C9: `StyledInputField` is a total function — a missing label never
throws, the label section is simply omitted — and the identifier fallback is
`htmlFor` defaulted from `name` (as `input-` ++ name) and the child's `name`
defaulted from the computed `htmlFor`, so the render-prop child receives
consistent `name`/`id` attributes. -/
theorem missing_label_and_id_defaults (cfg : InputFieldConfig) :
    (strTruthy cfg.label = false → (StyledInputField cfg).labelSection = none) ∧
    ((StyledInputField cfg).childProps.id = computedHtmlFor cfg.htmlFor cfg.name) ∧
    (strTruthy cfg.htmlFor = false → ∀ n : String, cfg.name = some n → n ≠ "" →
      (StyledInputField cfg).childProps.id = some ("input-" ++ n)) ∧
    (strTruthy cfg.htmlFor = true → (StyledInputField cfg).childProps.id = cfg.htmlFor) ∧
    (strTruthy cfg.name = true → (StyledInputField cfg).childProps.name = cfg.name) ∧
    (strTruthy cfg.name = false →
      (StyledInputField cfg).childProps.name = (StyledInputField cfg).childProps.id) := by
  refine ⟨?_, ?_, ?_, ?_, ?_, ?_⟩
  · intro hl
    simp [StyledInputField, hl]
  · simp [StyledInputField]
  · intro hh n hn hne
    simp [StyledInputField, computedHtmlFor, jsOrStr, hh, hn, hne]
  · intro hh
    simp [StyledInputField, computedHtmlFor, jsOrStr, hh]
  · intro hn
    simp [StyledInputField, jsOrStr, hn]
  · intro hn
    simp [StyledInputField, jsOrStr, hn]

/-- A field with no label, no `htmlFor` and a `name`. -/
def noLabelCfg : InputFieldConfig :=
  { baseCfg with label := none, name := some "email" }

/-- Witness for C9 at a concrete configuration. -/
theorem missing_label_and_id_defaults_witness :
    (StyledInputField noLabelCfg).labelSection = none ∧
    (StyledInputField noLabelCfg).childProps.id = some "input-email" ∧
    (StyledInputField noLabelCfg).childProps.name = some "email" :=
  ⟨(missing_label_and_id_defaults noLabelCfg).1 (by decide),
   (missing_label_and_id_defaults noLabelCfg).2.2.1 (by decide) "email" rfl (by decide),
   (missing_label_and_id_defaults noLabelCfg).2.2.2.2.1 (by decide)⟩

/-- C10: a truthy non-string error renders neither the error block nor the
hint, while the render-prop child still receives `error = true`. -/
theorem truthy_nonstring_error (cfg : InputFieldConfig)
    (h1 : cfg.error.truthy = true) (h2 : cfg.error.isString = false) :
    (StyledInputField cfg).errorBlock = none ∧
    (StyledInputField cfg).hintBlock = none ∧
    (StyledInputField cfg).childProps.error = some true := by
  refine ⟨?_, ?_, ?_⟩
  · cases he : cfg.error <;>
      simp_all [StyledInputField, JSVal.isString]
  · simp [StyledInputField, h1]
  · simp [StyledInputField, h1]

/-- A field with an object-valued error and a hint. -/
def objErrorCfg : InputFieldConfig :=
  { baseCfg with error := .vObj, hint := some "A hint" }

/-- Witness for C10 at a concrete configuration. -/
theorem truthy_nonstring_error_witness :
    (StyledInputField objErrorCfg).errorBlock = none ∧
    (StyledInputField objErrorCfg).hintBlock = none ∧
    (StyledInputField objErrorCfg).childProps.error = some true :=
  truthy_nonstring_error objErrorCfg (by decide) (by decide)

/-- Every key of a picked object is one of the requested keys. -/
theorem pick_keys_subset (obj : List (String × JSVal)) (keys : List String) :
    ∀ k ∈ (pick obj keys).map Prod.fst, k ∈ keys := by
  intro k hk
  simp only [pick, List.mem_map, List.mem_filterMap, Option.map_eq_some'] at hk
  obtain ⟨p, ⟨a, ha, kv, hkv, hp⟩, hpk⟩ := hk
  subst hp
  exact hpk ▸ ha

/-- When every requested key exists on the object, `pick` returns exactly the
requested keys, in order. -/
theorem pick_keys_complete (obj : List (String × JSVal)) (keys : List String)
    (h : ∀ k ∈ keys, (obj.find? fun kv => kv.1 == k).isSome = true) :
    (pick obj keys).map Prod.fst = keys := by
  induction keys with
  | nil => rfl
  | cons k ks ih =>
      have hk := h k (List.mem_cons_self k ks)
      obtain ⟨kv, hkv⟩ := Option.isSome_iff_exists.mp hk
      have ihr := ih fun a ha => h a (List.mem_cons_of_mem _ ha)
      simp only [pick, List.filterMap_cons, hkv, Option.map_some'] at ihr ⊢
      simp [ihr]

/-- C8: the update input contains exactly the application id plus the picked
`name`, `description`, `redirectUri` fields; `clientId`, `clientSecret` and
any other key of the form values never appear in it. -/
theorem update_input_fields (appId : String) (values : List (String × JSVal)) :
    (∀ k ∈ (applicationInput appId values).map Prod.fst,
      k = "id" ∨ k ∈ updateFields) ∧
    "clientId" ∉ (applicationInput appId values).map Prod.fst ∧
    "clientSecret" ∉ (applicationInput appId values).map Prod.fst ∧
    ((∀ k ∈ updateFields, (values.find? fun kv => kv.1 == k).isSome = true) →
      (applicationInput appId values).map Prod.fst = "id" :: updateFields) := by
  have hsub : ∀ k ∈ (applicationInput appId values).map Prod.fst,
      k = "id" ∨ k ∈ updateFields := by
    intro k hk
    simp only [applicationInput, List.map_cons, List.mem_cons] at hk
    rcases hk with h | h
    · exact Or.inl h
    · exact Or.inr (pick_keys_subset values updateFields k h)
  refine ⟨hsub, ?_, ?_, ?_⟩
  · intro hc
    rcases hsub _ hc with h | h
    · exact absurd h (by decide)
    · exact absurd h (by decide)
  · intro hc
    rcases hsub _ hc with h | h
    · exact absurd h (by decide)
    · exact absurd h (by decide)
  · intro h
    simp only [applicationInput, List.map_cons]
    rw [pick_keys_complete values updateFields h]

/-- Witness for C8: the input built from the full Formik values of `appB`. -/
theorem update_input_fields_witness :
    (applicationInput "app1" (valuesObj appB)).map Prod.fst =
      "id" :: updateFields ∧
    "clientId" ∉ (applicationInput "app1" (valuesObj appB)).map Prod.fst ∧
    "clientSecret" ∉ (applicationInput "app1" (valuesObj appB)).map Prod.fst :=
  ⟨(update_input_fields "app1" (valuesObj appB)).2.2.2 (by decide),
   (update_input_fields "app1" (valuesObj appB)).2.1,
   (update_input_fields "app1" (valuesObj appB)).2.2.1⟩

/-- Filtering out a cache id removes every occurrence of it. -/
theorem contains_filter_ne (l : List String) (x : String) :
    ((l.filter fun o => o != x).contains x) = false := by
  induction l with
  | nil => rfl
  | cons a t ih =>
      by_cases h : a = x
      · subst h
        simp [List.filter_cons, ih]
      · simp [List.filter_cons, h, ih, Ne.symm h]

/-- After deleting an account's `oAuthApplications` field, looking the field
up yields nothing. -/
theorem find_map_delete (l : List (String × Option (List String))) (a : String) :
    ((((l.map fun af => if af.1 == a then (af.1, none) else af).find?
        fun af => af.1 == a).map Prod.snd).join) = none := by
  induction l with
  | nil => rfl
  | cons af t ih =>
      rw [List.map_cons]
      by_cases h : af.1 = a
      · rw [if_pos (by simp [h]), List.find?_cons_of_pos _ (by simp [h])]
        rfl
      · rw [if_neg (by simp [h]), List.find?_cons_of_neg _ (by simp [h])]
        exact ih

/-- C3: one run of the delete confirmation flow. On a successful delete
mutation the application object is evicted from the cache, the parent
account's cached `oAuthApplications` listing no longer contains it, exactly
one success toast is raised, `onDelete` runs exactly once and the modal
closes. On a failed delete mutation the cache is untouched, `onDelete` does
not run, exactly one error toast is raised and the modal stays open. -/
theorem delete_confirmation_flow (app : Application) (c : Cache)
    (deleteRes : Except String DeleteResult) :
    (∀ d : DeleteResult, deleteRes = Except.ok d →
      (continueHandler app c deleteRes).cache.objects.contains app.id = false ∧
      cachedListingContains (continueHandler app c deleteRes).cache
        d.accountId app.id = false ∧
      countToasts (continueHandler app c deleteRes).toasts ToastType.success = 1 ∧
      (continueHandler app c deleteRes).toasts.length = 1 ∧
      (continueHandler app c deleteRes).onDeleteCalls = 1 ∧
      modalClosesAfter (continueHandler app c deleteRes) = true) ∧
    (∀ e : String, deleteRes = Except.error e →
      (continueHandler app c deleteRes).cache = c ∧
      (continueHandler app c deleteRes).onDeleteCalls = 0 ∧
      countToasts (continueHandler app c deleteRes).toasts ToastType.error = 1 ∧
      (continueHandler app c deleteRes).toasts.length = 1 ∧
      modalClosesAfter (continueHandler app c deleteRes) = false) := by
  constructor
  · rintro d rfl
    refine ⟨?_, ?_, ?_, ?_, ?_, ?_⟩
    · simp [continueHandler, deleteApplicationUpdate, Cache.gc, Cache.evict,
        Cache.modifyDeleteOAuthApps, contains_filter_ne]
    · simp only [continueHandler, deleteApplicationUpdate, Cache.gc, Cache.evict,
        Cache.modifyDeleteOAuthApps, cachedListingContains, Cache.oAuthApplications]
      rw [find_map_delete]
    · simp [continueHandler, countToasts]
    · simp [continueHandler]
    · simp [continueHandler]
    · simp [continueHandler, modalClosesAfter]
  · rintro e rfl
    refine ⟨?_, ?_, ?_, ?_, ?_⟩
    · simp [continueHandler]
    · simp [continueHandler]
    · simp [continueHandler, countToasts]
    · simp [continueHandler]
    · simp [continueHandler, modalClosesAfter]

/-- A concrete cache holding `appA` and a sibling under one account. -/
def cacheW : Cache :=
  { objects := ["app1", "app2"]
    accountFields := [("acct", some ["app1", "app2"])] }

/-- Witness for C3 at a concrete successful and a concrete failed delete. -/
theorem delete_confirmation_flow_witness :
    ((continueHandler appA cacheW
        (Except.ok { id := "app1", accountId := "acct" })).cache.objects.contains
        appA.id = false ∧
     cachedListingContains (continueHandler appA cacheW
        (Except.ok { id := "app1", accountId := "acct" })).cache "acct" appA.id = false ∧
     (continueHandler appA cacheW
        (Except.ok { id := "app1", accountId := "acct" })).onDeleteCalls = 1 ∧
     modalClosesAfter (continueHandler appA cacheW
        (Except.ok { id := "app1", accountId := "acct" })) = true) ∧
    ((continueHandler appA cacheW (Except.error "network")).cache = cacheW ∧
     (continueHandler appA cacheW (Except.error "network")).onDeleteCalls = 0 ∧
     modalClosesAfter (continueHandler appA cacheW (Except.error "network")) = false) := by
  have t1 := (delete_confirmation_flow appA cacheW
    (Except.ok { id := "app1", accountId := "acct" })).1
    { id := "app1", accountId := "acct" } rfl
  have t2 := (delete_confirmation_flow appA cacheW (Except.error "network")).2
    "network" rfl
  exact ⟨⟨t1.1, t1.2.1, t1.2.2.2.2.1, t1.2.2.2.2.2⟩, ⟨t2.1, t2.2.1, t2.2.2.2.2⟩⟩
